import Mathlib

/-!
Verification of the photoweb backend (Flask + SQLite) against its
natural-language specification.  The definitions below are a shallow
embedding of `src/backend/app_sqlite.py` and
`src/photoweb/backend/models_sqlite.py`: route handlers become pure
functions over explicit request and state values, the filesystem becomes a
list of stored names together with a trace of write/remove events, and
external collaborators (the HMAC primitive, werkzeug's `secure_filename`,
`email_validator`, the password hash check) are parameters of the
functions that call them.
-/

namespace PhotoWeb

/-! ## File-type validation (`models_sqlite.allowed_file`) -/

/-- The allow-list `ALLOWED_EXTENSIONS = {png, jpg, jpeg, gif, webp}` of
`allowed_file` in models_sqlite.py, as character lists. -/
def ALLOWED_EXTENSIONS : List (List Char) :=
  ["png".data, "jpg".data, "jpeg".data, "gif".data, "webp".data]

/-- The character-level test used when scanning for the last dot. -/
def notDot (c : Char) : Bool := c ≠ '.'

/-- The characters after the last dot: Python `filename.rsplit(".", 1)[1]`
for a filename that contains a dot. -/
def afterLastDot (cs : List Char) : List Char :=
  (cs.reverse.takeWhile notDot).reverse

/-- ASCII lowercasing, Python `str.lower` on an ASCII filename. -/
def lowerChars (cs : List Char) : List Char := cs.map Char.toLower

/-- models_sqlite.py `allowed_file`: `'.' in filename and
filename.rsplit('.', 1)[1].lower() in ALLOWED_EXTENSIONS`. -/
def allowed_file (filename : String) : Bool :=
  filename.data.contains '.' &&
    ALLOWED_EXTENSIONS.contains (lowerChars (afterLastDot filename.data))

/-- The spec's reading of `validateType`: the filename splits as
`stem ++ "." ++ ext` around its last dot (so `ext` is dot-free) and the
lowercased extension is in the allow-list. -/
def validTypeSpec (filename : String) : Prop :=
  ∃ stem ext : List Char,
    filename.data = stem ++ '.' :: ext ∧
    ext.contains '.' = false ∧
    ALLOWED_EXTENSIONS.contains (lowerChars ext) = true

lemma notDot_dot : notDot '.' = false := by decide

lemma notDot_of_ne (c : Char) (h : ¬ c = '.') : notDot c = true := by
  rw [notDot, decide_eq_true_eq]; exact h

lemma dropWhile_ne_dot (ds : List Char) (h : '.' ∈ ds) :
    ∃ tail, ds.dropWhile notDot = '.' :: tail := by
  induction ds with
  | nil => simp at h
  | cons d rest ih =>
    by_cases hd : d = '.'
    · subst hd
      exact ⟨rest, by rw [List.dropWhile_cons, notDot_dot]; simp⟩
    · have hr : '.' ∈ rest := by
        rcases List.mem_cons.mp h with h1 | h1
        · exact absurd h1.symm hd
        · exact h1
      obtain ⟨tail, ht⟩ := ih hr
      refine ⟨tail, ?_⟩
      rw [List.dropWhile_cons, notDot_of_ne d hd]
      simpa using ht

lemma takeWhile_all_append {p : Char → Bool} (xs ys : List Char)
    (hall : ∀ x ∈ xs, p x = true) (y : Char) (hy : p y = false) :
    (xs ++ y :: ys).takeWhile p = xs := by
  induction xs with
  | nil => simp [List.takeWhile_cons, hy]
  | cons x xs ih =>
    have hx : p x = true := hall x (List.mem_cons_self x xs)
    simp only [List.cons_append, List.takeWhile_cons, hx, if_true]
    rw [ih (fun a ha => hall a (List.mem_cons_of_mem x ha))]

lemma contains_eq_mem (cs : List Char) (c : Char) :
    cs.contains c = true ↔ c ∈ cs := by
  simp [List.contains]

/-- A filename that contains a dot splits around its last dot, and
`afterLastDot` is the dot-free part after it. -/
lemma afterLastDot_split (cs : List Char) (h : cs.contains '.' = true) :
    ∃ stem, cs = stem ++ '.' :: afterLastDot cs ∧
      (afterLastDot cs).contains '.' = false := by
  have hmem : '.' ∈ cs.reverse := by
    rw [List.mem_reverse]; exact (contains_eq_mem cs '.').mp h
  obtain ⟨tail, ht⟩ := dropWhile_ne_dot cs.reverse hmem
  have hsplit : cs.reverse.takeWhile notDot ++ '.' :: tail = cs.reverse := by
    rw [← ht]; exact List.takeWhile_append_dropWhile notDot cs.reverse
  refine ⟨tail.reverse, ?_, ?_⟩
  · have h2 := congrArg List.reverse hsplit
    rw [List.reverse_reverse] at h2
    have hA : afterLastDot cs = (cs.reverse.takeWhile notDot).reverse := rfl
    rw [hA]
    conv_lhs => rw [← h2]
    rw [List.reverse_append, List.reverse_cons, List.append_assoc]
    rfl
  · rw [Bool.eq_false_iff]
    intro hcon
    have h3 : '.' ∈ afterLastDot cs := (contains_eq_mem _ '.').mp hcon
    rw [afterLastDot, List.mem_reverse] at h3
    have h4 := List.mem_takeWhile_imp h3
    rw [notDot_dot] at h4
    exact Bool.false_ne_true h4

/-- If the filename splits around a dot with a dot-free suffix, that suffix
is `afterLastDot`. -/
lemma afterLastDot_of_split (stem ext : List Char) (hext : ext.contains '.' = false) :
    afterLastDot (stem ++ '.' :: ext) = ext := by
  have hall : ∀ x ∈ ext.reverse, notDot x = true := by
    intro x hx
    rw [List.mem_reverse] at hx
    refine notDot_of_ne x ?_
    intro hc; subst hc
    rw [(contains_eq_mem ext '.').mpr hx] at hext
    exact Bool.noConfusion hext
  rw [afterLastDot, List.reverse_append, List.reverse_cons, List.append_assoc]
  simp only [List.singleton_append]
  rw [takeWhile_all_append ext.reverse stem.reverse hall '.' notDot_dot]
  exact List.reverse_reverse ext

/-- C4: `allowed_file` accepts a filename exactly when it contains a dot and
the substring after its last dot, lowercased, is one of png, jpg, jpeg, gif,
webp; a filename with no dot is always rejected. -/
theorem C4_allowed_file_characterisation (filename : String) :
    (allowed_file filename = true ↔ validTypeSpec filename) ∧
    (filename.data.contains '.' = false → allowed_file filename = false) := by
  constructor
  · constructor
    · intro h
      rw [allowed_file, Bool.and_eq_true] at h
      obtain ⟨stem, hsp, hfree⟩ := afterLastDot_split filename.data h.1
      exact ⟨stem, afterLastDot filename.data, hsp, hfree, h.2⟩
    · rintro ⟨stem, ext, hsp, hfree, hallow⟩
      rw [allowed_file, Bool.and_eq_true]
      constructor
      · rw [contains_eq_mem, hsp]
        exact List.mem_append_right stem (List.mem_cons_self _ _)
      · rw [hsp, afterLastDot_of_split stem ext hfree]
        exact hallow
  · intro h
    rw [allowed_file, h, Bool.false_and]

/-- Concrete check discharging the hypothesis of the no-dot clause of C4 at
the filename "photo". -/
theorem C4_allowed_file_characterisation_witness :
    allowed_file "photo" = false :=
  (C4_allowed_file_characterisation "photo").2 (by decide)

/-! ## Token service (`models_sqlite.create_token` / `decode_token`)

A JWT is modelled as its decoded content: the payload `{user_id, exp}`
plus the HMAC-SHA256 tag over that payload.  The MAC primitive itself is
an external library (PyJWT/hashlib) and enters as a parameter `mac`;
times are seconds since the epoch. -/

/-- The JWT payload `{'user_id': ..., 'exp': ...}` built by `create_token`. -/
structure TokenPayload where
  user_id : Nat
  exp : Nat
deriving DecidableEq, Repr

/-- A signed token: payload plus the signature PyJWT appends. -/
structure SignedToken where
  payload : TokenPayload
  sig : Nat
deriving DecidableEq, Repr

/-- Seconds in `timedelta(days=1)`. -/
def secondsPerDay : Nat := 86400

/-- models_sqlite.py `create_token`: payload `{user_id, exp := now + expiration_days
days}` signed with the server secret (`expiration_days` defaults to 7 at every
call site). -/
def create_token (mac : Nat → TokenPayload → Nat) (user_id secret_key now expiration_days : Nat) :
    SignedToken :=
  ⟨⟨user_id, now + expiration_days * secondsPerDay⟩,
   mac secret_key ⟨user_id, now + expiration_days * secondsPerDay⟩⟩

/-- models_sqlite.py `decode_token`: PyJWT verifies the HS256 signature and the
`exp` claim (expired when the verification time has reached `exp`), returning
the payload, and `decode_token` maps both failure modes to `None`. -/
def decode_token (mac : Nat → TokenPayload → Nat) (tok : SignedToken) (secret_key now : Nat) :
    Option TokenPayload :=
  if tok.sig = mac secret_key tok.payload then
    if tok.payload.exp ≤ now then none else some tok.payload
  else none

/-- C2: a token issued for an account verifies to that account at any time
strictly before its 7-day expiry, fails at or after the expiry instant, and
any token that differs from every token signed under the secret fails. -/
theorem C2_token_service (mac : Nat → TokenPayload → Nat) (secret uid now t : Nat) :
    (t < now + 7 * secondsPerDay →
      decode_token mac (create_token mac uid secret now 7) secret t =
        some ⟨uid, now + 7 * secondsPerDay⟩) ∧
    (now + 7 * secondsPerDay ≤ t →
      decode_token mac (create_token mac uid secret now 7) secret t = none) ∧
    (∀ tok : SignedToken, (∀ p : TokenPayload, tok ≠ ⟨p, mac secret p⟩) →
      decode_token mac tok secret t = none) := by
  refine ⟨?_, ?_, ?_⟩
  · intro hlt
    have hne : ¬ (now + 7 * secondsPerDay ≤ t) := Nat.not_le_of_lt hlt
    simp [decode_token, create_token, hne]
  · intro hle
    simp [decode_token, create_token, hle]
  · intro tok htamper
    rw [decode_token, if_neg]
    intro hsig
    exact htamper tok.payload (by cases tok; simp_all)

/-- An example MAC used only to instantiate the token-service theorem on
concrete inputs. -/
def macEx (secret : Nat) (p : TokenPayload) : Nat :=
  secret + 2 * p.user_id + 3 * p.exp

/-- Concrete instantiation of C2: issuance at time 0 for account 1 under
secret 5, checked one second after issuance, at the expiry instant, and on a
token signed with the wrong tag. -/
theorem C2_token_service_witness :
    decode_token macEx (create_token macEx 1 5 0 7) 5 1 = some ⟨1, 604800⟩ ∧
    decode_token macEx (create_token macEx 1 5 0 7) 5 604800 = none ∧
    decode_token macEx ⟨⟨1, 10⟩, 0⟩ 5 1 = none := by
  refine ⟨(C2_token_service macEx 5 1 0 1).1 (by decide),
          (C2_token_service macEx 5 1 0 604800).2.1 (by decide),
          (C2_token_service macEx 5 1 0 1).2.2 ⟨⟨1, 10⟩, 0⟩ ?_⟩
  intro p hp
  injection hp with h1 h2
  subst h1
  exact absurd h2 (by decide)

/-! ## Credential store (`register` and `login` in app_sqlite.py)

A request body is its three optional JSON fields; Python's falsiness of a
missing or empty field is the `none`/`some ""` test below.  The external
`email_validator` library enters as the parameter `validEmail`, and
werkzeug's `generate_password_hash`/`check_password_hash` as `hash` and
`check`.  A route's JSON response is abstracted to its status code and its
`message` field (success responses, which carry a token and a user object
instead of a message, keep an empty message). -/

/-- A stored row of the `users` table. -/
structure Account where
  username : String
  email : String
  passwordHash : String
  role : String
deriving DecidableEq, Repr

/-- An HTTP response, reduced to status code and message. -/
structure HttpResult where
  status : Nat
  message : String
deriving DecidableEq, Repr

/-- Python `str.lower` on an ASCII string. -/
def lowerStr (s : String) : String := ⟨lowerChars s.data⟩

/-- The JSON body of `POST /api/auth/register`. -/
structure RegisterRequest where
  username : Option String
  email : Option String
  password : Option String
deriving DecidableEq, Repr

/-- app_sqlite.py `register`: requires all three fields truthy, a valid email,
and no existing row with the same username or with the lowercased email;
otherwise 400 and the table untouched.  On success it appends a row with the
lowercased email, the hashed password and role `admin`. -/
def register (validEmail : String → Bool) (hash : String → String)
    (accounts : List Account) (req : RegisterRequest) : HttpResult × List Account :=
  match req.username, req.email, req.password with
  | some u, some e, some pw =>
    if u = "" ∨ e = "" ∨ pw = "" then (⟨400, "All fields are required"⟩, accounts)
    else if validEmail e = false then (⟨400, "Invalid email address"⟩, accounts)
    else if accounts.any (fun a => a.username = u) then
      (⟨400, "Username already exists"⟩, accounts)
    else if accounts.any (fun a => a.email = lowerStr e) then
      (⟨400, "Email already exists"⟩, accounts)
    else (⟨201, ""⟩, accounts ++ [⟨u, lowerStr e, hash pw, "admin"⟩])
  | _, _, _ => (⟨400, "All fields are required"⟩, accounts)

/-- app_sqlite.py `login`: 400 on a missing field, then lookup by username and
a single combined `not user or not user.check_password(...)` test that yields
the one 401 message `Invalid credentials`. -/
def login (check : String → String → Bool) (accounts : List Account)
    (username password : Option String) : HttpResult :=
  match username, password with
  | some u, some pw =>
    if u = "" ∨ pw = "" then ⟨400, "Username and password are required"⟩
    else
      match accounts.find? (fun a => a.username = u) with
      | none => ⟨401, "Invalid credentials"⟩
      | some user =>
        if check user.passwordHash pw = false then ⟨401, "Invalid credentials"⟩
        else ⟨200, ""⟩
  | _, _ => ⟨400, "Username and password are required"⟩

/-- C5: under the data-model invariant that stored emails are
lowercase-normalised, a registration whose username duplicates a stored
username, or whose email duplicates a stored email up to letter case, or
whose email is invalid, answers 400 and leaves the account table unchanged. -/
theorem C5_register_rejects_duplicates (validEmail : String → Bool) (hash : String → String)
    (accounts : List Account) (req : RegisterRequest)
    (hInv : ∀ a ∈ accounts, a.email = lowerStr a.email)
    (hBad :
      (∃ a ∈ accounts, req.username = some a.username) ∨
      (∃ a ∈ accounts, ∃ e, req.email = some e ∧ lowerStr e = lowerStr a.email) ∨
      (∃ e, req.email = some e ∧ validEmail e = false)) :
    (register validEmail hash accounts req).1.status = 400 ∧
    (register validEmail hash accounts req).2 = accounts := by
  rcases req with ⟨ou, oe, op⟩
  cases ou with
  | none => exact ⟨rfl, rfl⟩
  | some u =>
    cases oe with
    | none => exact ⟨rfl, rfl⟩
    | some e =>
      cases op with
      | none => exact ⟨rfl, rfl⟩
      | some pw =>
        rw [register]
        dsimp only
        split_ifs with h1 h2 h3 h4
        · exact ⟨rfl, rfl⟩
        · exact ⟨rfl, rfl⟩
        · exact ⟨rfl, rfl⟩
        · exact ⟨rfl, rfl⟩
        · exfalso
          rcases hBad with ⟨a, ha, hua⟩ | ⟨a, ha, e', he', hle⟩ | ⟨e', he', hve⟩
          · apply h3
            rw [List.any_eq_true]
            refine ⟨a, ha, ?_⟩
            rw [decide_eq_true_eq]
            injection hua with h
            exact h.symm
          · apply h4
            rw [List.any_eq_true]
            have hee : e' = e := by injection he' with h; exact h.symm
            subst hee
            refine ⟨a, ha, ?_⟩
            rw [decide_eq_true_eq, hInv a ha]
            exact hle.symm
          · have hee : e' = e := by injection he' with h; exact h.symm
            subst hee
            exact h2 hve

/-- Concrete instantiation of C5: registering the username `admin` again
against a table already holding `admin`. -/
theorem C5_register_rejects_duplicates_witness :
    (register (fun _ => true) (fun s => s) [⟨"admin", "a@b.com", "h", "admin"⟩]
        ⟨some "admin", some "x@y.com", some "pw"⟩).1.status = 400 ∧
    (register (fun _ => true) (fun s => s) [⟨"admin", "a@b.com", "h", "admin"⟩]
        ⟨some "admin", some "x@y.com", some "pw"⟩).2 =
      [⟨"admin", "a@b.com", "h", "admin"⟩] :=
  C5_register_rejects_duplicates (fun _ => true) (fun s => s)
    [⟨"admin", "a@b.com", "h", "admin"⟩] ⟨some "admin", some "x@y.com", some "pw"⟩
    (by decide) (Or.inl (by decide))

/-- C6: a login whose username matches no account and a login whose username
matches an account but whose password fails the hash check produce the very
same response: 401 with message `Invalid credentials`. -/
theorem C6_login_failure_indistinguishable (check : String → String → Bool)
    (accounts : List Account) (u1 p1 u2 p2 : String)
    (hu1 : u1 ≠ "") (hp1 : p1 ≠ "") (hu2 : u2 ≠ "") (hp2 : p2 ≠ "")
    (h1 : accounts.find? (fun a => a.username = u1) = none)
    (a : Account) (h2 : accounts.find? (fun a => a.username = u2) = some a)
    (h2pw : check a.passwordHash p2 = false) :
    login check accounts (some u1) (some p1) = login check accounts (some u2) (some p2) ∧
    login check accounts (some u1) (some p1) = ⟨401, "Invalid credentials"⟩ := by
  have e1 : login check accounts (some u1) (some p1) = ⟨401, "Invalid credentials"⟩ := by
    rw [login, if_neg (by simp [hu1, hp1]), h1]
  have e2 : login check accounts (some u2) (some p2) = ⟨401, "Invalid credentials"⟩ := by
    rw [login, if_neg (by simp [hu2, hp2]), h2]
    dsimp only
    rw [if_pos h2pw]
  exact ⟨e1.trans e2.symm, e1⟩

/-- Concrete instantiation of C6: unknown user `bob` versus known user
`admin` with a wrong password, over a one-row table and an equality hash
check. -/
theorem C6_login_failure_indistinguishable_witness :
    login (fun h p => h = p) [⟨"admin", "a@b.com", "secret", "admin"⟩]
        (some "bob") (some "x") =
      login (fun h p => h = p) [⟨"admin", "a@b.com", "secret", "admin"⟩]
        (some "admin") (some "wrong") ∧
    login (fun h p => h = p) [⟨"admin", "a@b.com", "secret", "admin"⟩]
        (some "bob") (some "x") = ⟨401, "Invalid credentials"⟩ :=
  C6_login_failure_indistinguishable (fun h p => h = p)
    [⟨"admin", "a@b.com", "secret", "admin"⟩] "bob" "x" "admin" "wrong"
    (by decide) (by decide) (by decide) (by decide) (by decide)
    ⟨"admin", "a@b.com", "secret", "admin"⟩ (by decide) (by decide)

/-! ## Access guard (`models_sqlite.token_required`, app_sqlite `verify_token`)

The guard works on the string form of a token, so the token service it
delegates to enters as a parameter `decode : String → Option Nat` giving
the embedded `user_id` of a token it accepts. -/

/-- Python `str.split(' ')` on the character list: splits at every single
space, keeping empty pieces (`"".split(' ') == ['']`). -/
def splitSpaces : List Char → List (List Char)
  | [] => [[]]
  | ' ' :: rest => [] :: splitSpaces rest
  | c :: rest =>
    match splitSpaces rest with
    | [] => [[c]]
    | w :: ws => (c :: w) :: ws

/-- Python `s.split(' ')` as a list of strings. -/
def pySplitSpace (s : String) : List String :=
  (splitSpaces s.data).map (fun cs => ⟨cs⟩)

/-- A stored user row as the access guard sees it. -/
structure UserRow where
  id : Nat
  username : String
  role : String
deriving DecidableEq, Repr

/-- Outcome of the guard: an error response, or the handler running with the
resolved user attached to the request context. -/
inductive AuthOutcome where
  | err (status : Nat) (message : String)
  | ok (user : UserRow)
deriving DecidableEq, Repr

/-- models_sqlite.py `token_required`: reads the Authorization header, takes
`split(' ')[1]` as the token (IndexError → `Token is invalid`), 401s on a
missing or empty token, on a token the token service rejects, and on an
unknown user id; 403s on a non-admin role; otherwise runs the handler with
the user attached. -/
def token_required (decode : String → Option Nat) (users : List UserRow)
    (authHeader : Option String) : AuthOutcome :=
  match authHeader with
  | none => .err 401 "No authentication token, access denied"
  | some h =>
    match (pySplitSpace h).get? 1 with
    | none => .err 401 "Token is invalid"
    | some token =>
      if token = "" then .err 401 "No authentication token, access denied"
      else
        match decode token with
        | none => .err 401 "Token is not valid or has expired"
        | some uid =>
          match users.find? (fun u => u.id = uid) with
          | none => .err 401 "User not found"
          | some user =>
            if user.role ≠ "admin" then .err 403 "Access denied. Admin only."
            else .ok user

/-- C8: the guard answers the missing-token error with no header, the
malformed error when the header does not split into scheme plus token, the
invalid-token error when the token service rejects the token, the
unknown-account error when the id resolves to no row; an admin user row
resolved from a valid token lets the handler run with that user attached,
and the handler runs only with such a resolved user. -/
theorem C8_token_required_guard (decode : String → Option Nat) (users : List UserRow)
    (authHeader : Option String) :
    (authHeader = none →
      token_required decode users authHeader =
        .err 401 "No authentication token, access denied") ∧
    (∀ h, authHeader = some h → (pySplitSpace h).get? 1 = none →
      token_required decode users authHeader = .err 401 "Token is invalid") ∧
    (∀ h t, authHeader = some h → (pySplitSpace h).get? 1 = some t → t ≠ "" →
      decode t = none →
      token_required decode users authHeader =
        .err 401 "Token is not valid or has expired") ∧
    (∀ h t uid, authHeader = some h → (pySplitSpace h).get? 1 = some t → t ≠ "" →
      decode t = some uid → users.find? (fun u => u.id = uid) = none →
      token_required decode users authHeader = .err 401 "User not found") ∧
    (∀ h t uid user, authHeader = some h → (pySplitSpace h).get? 1 = some t → t ≠ "" →
      decode t = some uid → users.find? (fun u => u.id = uid) = some user →
      user.role = "admin" →
      token_required decode users authHeader = .ok user) ∧
    (∀ user, token_required decode users authHeader = .ok user →
      ∃ h t, authHeader = some h ∧ (pySplitSpace h).get? 1 = some t ∧ t ≠ "" ∧
        decode t = some user.id ∧
        users.find? (fun u => u.id = user.id) = some user ∧ user.role = "admin") := by
  refine ⟨?_, ?_, ?_, ?_, ?_, ?_⟩
  · intro hnone; subst hnone; rfl
  · intro h hh hsp; subst hh
    rw [token_required, hsp]
  · intro h t hh hsp ht hdec; subst hh
    rw [token_required, hsp]
    dsimp only
    rw [if_neg ht, hdec]
  · intro h t uid hh hsp ht hdec hfind; subst hh
    rw [token_required, hsp]
    dsimp only
    rw [if_neg ht, hdec]
    dsimp only
    rw [hfind]
  · intro h t uid user hh hsp ht hdec hfind hrole; subst hh
    rw [token_required, hsp]
    dsimp only
    rw [if_neg ht, hdec]
    dsimp only
    rw [hfind]
    dsimp only
    rw [if_neg (by simp [hrole])]
  · intro user hok
    cases authHeader with
    | none => exact absurd hok (by rw [token_required]; intro hc; cases hc)
    | some h =>
      rw [token_required] at hok
      cases hsp : (pySplitSpace h).get? 1 with
      | none => rw [hsp] at hok; cases hok
      | some t =>
        rw [hsp] at hok
        dsimp only at hok
        by_cases ht : t = ""
        · rw [if_pos ht] at hok; cases hok
        · rw [if_neg ht] at hok
          cases hdec : decode t with
          | none => rw [hdec] at hok; cases hok
          | some uid =>
            rw [hdec] at hok
            dsimp only at hok
            cases hfind : users.find? (fun u => u.id = uid) with
            | none => rw [hfind] at hok; cases hok
            | some u0 =>
              rw [hfind] at hok
              dsimp only at hok
              by_cases hrole : u0.role = "admin"
              · rw [if_neg (by simp [hrole])] at hok
                have hu : u0 = user := by injection hok
                subst hu
                have huid : u0.id = uid := by
                  have h5 := List.find?_some hfind
                  rwa [decide_eq_true_eq] at h5
                refine ⟨h, t, rfl, hsp, ht, ?_, ?_, hrole⟩
                · rw [huid]; exact hdec
                · rw [huid]; exact hfind
              · rw [if_pos (by simp [hrole])] at hok
                cases hok

/-- Concrete instantiation of C8: a one-user table and a decoder accepting
the single token string `tok`; the header `Bearer` alone is malformed, and
`Bearer tok` reaches the handler with the admin user attached. -/
theorem C8_token_required_guard_witness :
    token_required (fun t => if t = "tok" then some 1 else none)
        [⟨1, "admin", "admin"⟩] (some "Bearer") = .err 401 "Token is invalid" ∧
    token_required (fun t => if t = "tok" then some 1 else none)
        [⟨1, "admin", "admin"⟩] (some "Bearer tok") = .ok ⟨1, "admin", "admin"⟩ :=
  ⟨(C8_token_required_guard (fun t => if t = "tok" then some 1 else none)
      [⟨1, "admin", "admin"⟩] (some "Bearer")).2.1 "Bearer" rfl (by decide),
   (C8_token_required_guard (fun t => if t = "tok" then some 1 else none)
      [⟨1, "admin", "admin"⟩] (some "Bearer tok")).2.2.2.2.1 "Bearer tok" "tok" 1
      ⟨1, "admin", "admin"⟩ rfl (by decide) (by decide) (by decide) (by decide) rfl⟩

/-- Python `str.replace('Bearer ', '')`: removes every occurrence of the
seven-character pattern, scanning left to right. -/
def stripBearer : List Char → List Char
  | 'B' :: 'e' :: 'a' :: 'r' :: 'e' :: 'r' :: ' ' :: rest => stripBearer rest
  | c :: rest => c :: stripBearer rest
  | [] => []

/-- The token extraction of app_sqlite.py `verify_token`:
`request.headers.get('Authorization', '').replace('Bearer ', '')`. -/
def verify_token_extract (authHeader : Option String) : String :=
  ⟨stripBearer ((authHeader.getD "").data)⟩

/-- app_sqlite.py `verify_token` (GET /api/auth/verify): the token is the
Authorization header with every occurrence of `"Bearer "` deleted; 401 on an
empty result, a rejected token or an unknown user id, 200 otherwise. -/
def verify_token_route (decode : String → Option Nat) (users : List UserRow)
    (authHeader : Option String) : HttpResult :=
  if verify_token_extract authHeader = "" then
    ⟨401, "No token provided"⟩
  else
    match decode (verify_token_extract authHeader) with
    | none => ⟨401, "Invalid or expired token"⟩
    | some uid =>
      match users.find? (fun u => u.id = uid) with
      | none => ⟨401, "User not found"⟩
      | some _ => ⟨200, ""⟩

lemma verify_token_extract_bearer (T : String) :
    verify_token_extract (some ("Bearer " ++ T)) = verify_token_extract (some T) := by
  have hdata : ("Bearer " ++ T).data = 'B' :: 'e' :: 'a' :: 'r' :: 'e' :: 'r' :: ' ' :: T.data := by
    cases T; rfl
  rw [verify_token_extract, verify_token_extract]
  simp only [Option.getD_some]
  rw [hdata]
  rfl

/-- C9: GET /api/auth/verify treats a bare token header exactly like a
`Bearer`-prefixed one — the two headers always get the very same response —
and a valid bare token (one the service accepts, naming a stored user, with
no `"Bearer "` inside) is accepted with 200. -/
theorem C9_verify_accepts_bare_token (decode : String → Option Nat)
    (users : List UserRow) (T : String) :
    (verify_token_route decode users (some ("Bearer " ++ T)) =
      verify_token_route decode users (some T)) ∧
    (stripBearer T.data = T.data → T ≠ "" →
      ∀ uid u, decode T = some uid → users.find? (fun x => x.id = uid) = some u →
        verify_token_route decode users (some T) = ⟨200, ""⟩) := by
  constructor
  · rw [verify_token_route, verify_token_route, verify_token_extract_bearer]
  · intro hfix hne uid u hdec hfind
    have hT : verify_token_extract (some T) = T := by
      rw [verify_token_extract]
      simp only [Option.getD_some]
      rw [hfix]
    rw [verify_token_route, hT, if_neg hne, hdec]
    dsimp only
    rw [hfind]

/-- Concrete instantiation of C9: the bare header `tok` is accepted with 200
by the verify endpoint. -/
theorem C9_verify_accepts_bare_token_witness :
    verify_token_route (fun t => if t = "tok" then some 1 else none)
        [⟨1, "admin", "admin"⟩] (some "tok") = ⟨200, ""⟩ :=
  (C9_verify_accepts_bare_token (fun t => if t = "tok" then some 1 else none)
      [⟨1, "admin", "admin"⟩] "tok").2 (by decide) (by decide) 1
    ⟨1, "admin", "admin"⟩ (by decide) (by decide)

/-! ## Asset lifecycle (portfolio and content routes of app_sqlite.py)

The upload directory is the list of stored file names; every handler also
returns the trace of filesystem events it performed, in order.  werkzeug's
`secure_filename` and the `datetime.utcnow().timestamp()` string are the
parameters `secure` and `ts`.  A 500 answer (`Server error: ...` with the
exception text) is abbreviated to the message `Server error`; on it the
database session is rolled back, so the returned row is the original one,
while the filesystem events already performed stay. -/

/-- An uploaded multipart file as the handlers see it (only its client
filename steers the control flow). -/
structure UploadedFile where
  filename : String
deriving DecidableEq, Repr

/-- A stored row of the `portfolio` table. -/
structure PortfolioRow where
  title : String
  description : String
  category : String
  image_url : String
  featured : Bool
  order_val : Int
deriving DecidableEq, Repr

/-- The multipart form of the portfolio routes: the optional file field and
the optional text fields. -/
structure PortfolioForm where
  image : Option UploadedFile
  title : Option String
  description : Option String
  category : Option String
  featured : Option String
  order_field : Option String
deriving DecidableEq, Repr

/-- A filesystem event on the upload directory. -/
inductive FsEvent where
  | removeFile (name : String)
  | writeFile (name : String)
deriving DecidableEq, Repr

/-- Replay one event on the set of stored file names. -/
def applyEvent (disk : List String) : FsEvent → List String
  | .removeFile n => disk.erase n
  | .writeFile n => disk ++ [n]

/-- Replay a trace of events, first event first. -/
def applyEvents (disk : List String) : List FsEvent → List String
  | [] => disk
  | e :: es => applyEvents (applyEvent disk e) es

/-- `os.path.basename`: the part of a path after its last `/`. -/
def basename (path : String) : String :=
  ⟨(path.data.reverse.takeWhile (fun c => c ≠ '/')).reverse⟩

/-- Python `str.replace('/uploads/', '')`: removes every occurrence of the
pattern, scanning left to right. -/
def stripUploads : List Char → List Char
  | '/' :: 'u' :: 'p' :: 'l' :: 'o' :: 'a' :: 'd' :: 's' :: '/' :: rest => stripUploads rest
  | c :: rest => c :: stripUploads rest
  | [] => []

/-- The ASCII characters Python's `int()` strips around a literal (the
ASCII part of Py_UNICODE_ISSPACE: 0x09–0x0d, 0x1c–0x1f and the space). -/
def pySpace (c : Char) : Bool :=
  (9 ≤ c.toNat && c.toNat ≤ 13) || (28 ≤ c.toNat && c.toNat ≤ 31) || c.toNat == 32

/-- After a first digit: further ASCII digits, any underscore standing
between two digits (PEP 515). -/
def digitsTail : List Char → Bool
  | [] => true
  | '_' :: c :: rest => c.isDigit && digitsTail rest
  | c :: rest => c.isDigit && digitsTail rest

/-- A digit group as Python's `int()` accepts it: one or more ASCII digits
with single underscores only between digits — `1_0` parses, `_1`, `1_` and
`1__0` do not. -/
def pyDigits : List Char → Bool
  | [] => false
  | c :: rest => c.isDigit && digitsTail rest

/-- Value of a digit run, PEP 515 underscores skipped. -/
def digitsVal (ds : List Char) : Nat :=
  (ds.filter (fun c => c ≠ '_')).foldl (fun acc c => acc * 10 + (c.toNat - 48)) 0

/-- Python `int(s)` on an ASCII form string: optional surrounding
whitespace, an optional single sign, then ASCII digits with optional PEP 515
underscores between digits; anything else raises ValueError, modelled as
`none`.  (Python additionally accepts non-ASCII digit and whitespace
characters; theorems whose truth rests on the ValueError set carry an
ASCII-input hypothesis marking where this model and `int()` coincide.) -/
def pyInt (s : String) : Option Int :=
  match ((s.data.dropWhile pySpace).reverse.dropWhile pySpace).reverse with
  | [] => none
  | '+' :: ds => if pyDigits ds then some (digitsVal ds) else none
  | '-' :: ds => if pyDigits ds then some (-(digitsVal ds : Int)) else none
  | ds => if pyDigits ds then some (digitsVal ds) else none

/-- `int(request.form.get('order', 0))`: the default `0` when the field is
absent, else the Python integer parse of the string. -/
def parseOrderField (o : Option String) : Option Int :=
  match o with
  | none => some 0
  | some s => pyInt s

/-- Outcome of `POST /api/portfolio`: an error response, or the created row
(fields exactly as the handler passes them to the `Portfolio` constructor:
`title`/`category` stay optional, `description` defaults to `""`). -/
inductive CreateOutcome where
  | err (status : Nat) (message : String)
  | created (title : Option String) (description : String) (category : Option String)
      (image_url : String) (featured : Bool) (order_val : Int)
deriving DecidableEq, Repr

/-- app_sqlite.py `create_portfolio`: 400 without an image file, on an empty
filename, and on a disallowed type; otherwise the file is saved under the
timestamp-prefixed sanitized name and the row is built and committed — where
`int(request.form.get('order', 0))` can raise ValueError at construction,
and `db.session.commit()` raises IntegrityError when the `nullable=False`
columns `title` or `category` (models_sqlite.py lines 50, 52) receive the
`None` of an absent form field; either exception turns the request into a
500 after the file was already written. -/
def create_portfolio (secure : String → String) (ts : String)
    (form : PortfolioForm) : CreateOutcome × List FsEvent :=
  match form.image with
  | none => (.err 400 "Image is required", [])
  | some file =>
    if file.filename = "" then (.err 400 "No file selected", [])
    else if allowed_file file.filename = false then (.err 400 "Invalid file type", [])
    else
      let stored := ts ++ "_" ++ secure file.filename
      match parseOrderField form.order_field with
      | none => (.err 500 "Server error", [FsEvent.writeFile stored])
      | some ord =>
        if form.title = none ∨ form.category = none then
          (.err 500 "Server error", [FsEvent.writeFile stored])
        else
          (.created form.title (form.description.getD "") form.category
            ("/uploads/" ++ stored) (form.featured.getD "" = "true") ord,
           [FsEvent.writeFile stored])

/-- The image-replacement block of app_sqlite.py `update_portfolio` (lines
241–256): with a non-empty, allowed file it first deletes the old file named
by the row's `image_url` (if present on disk), then writes the new
timestamp-prefixed file and updates `image_url`; otherwise it is a no-op. -/
def update_portfolio_image (secure : String → String) (ts : String)
    (disk : List String) (item : PortfolioRow) (image : Option UploadedFile) :
    PortfolioRow × List String × List FsEvent :=
  match image with
  | none => (item, disk, [])
  | some file =>
    if file.filename = "" then (item, disk, [])
    else if allowed_file file.filename = false then (item, disk, [])
    else
      let delEvents :=
        if item.image_url ≠ "" then
          if disk.contains (basename item.image_url) then
            [FsEvent.removeFile (basename item.image_url)]
          else []
        else []
      let disk1 := applyEvents disk delEvents
      let stored := ts ++ "_" ++ secure file.filename
      ({ item with image_url := "/uploads/" ++ stored },
       applyEvents disk1 [FsEvent.writeFile stored],
       delEvents ++ [FsEvent.writeFile stored])

/-- `if request.form.get('title'): item.title = ...` — truthiness-guarded,
so an empty string leaves the field alone. -/
def apply_title (item : PortfolioRow) (o : Option String) : PortfolioRow :=
  match o with
  | some t => if t = "" then item else { item with title := t }
  | none => item

/-- `if request.form.get('description') is not None: ...` — presence-guarded,
so an empty string does overwrite. -/
def apply_description (item : PortfolioRow) (o : Option String) : PortfolioRow :=
  match o with
  | some d => { item with description := d }
  | none => item

/-- `if request.form.get('category'): ...` — truthiness-guarded like title. -/
def apply_category (item : PortfolioRow) (o : Option String) : PortfolioRow :=
  match o with
  | some c => if c = "" then item else { item with category := c }
  | none => item

/-- `if request.form.get('featured') is not None: item.featured = (... == 'true')`. -/
def apply_featured (item : PortfolioRow) (o : Option String) : PortfolioRow :=
  match o with
  | some f => { item with featured := f = "true" }
  | none => item

/-- The four text assignments of the field block, in source order. -/
def apply_text_fields (item : PortfolioRow) (form : PortfolioForm) : PortfolioRow :=
  apply_featured
    (apply_category (apply_description (apply_title item form.title) form.description)
      form.category)
    form.featured

/-- The form-field block of app_sqlite.py `update_portfolio` (lines 258–268):
the four text assignments, then `item.order = int(request.form.get('order'))`
when the field is present; `none` is the raised ValueError of `int(...)`. -/
def apply_portfolio_form (item : PortfolioRow) (form : PortfolioForm) :
    Option PortfolioRow :=
  match form.order_field with
  | none => some (apply_text_fields item form)
  | some o =>
    match pyInt o with
    | none => none
    | some n => some { apply_text_fields item form with order_val := n }

/-- app_sqlite.py `update_portfolio` on an existing row: the image block,
then the field block, then commit; an exception in the field block rolls the
session back (the row reverts) but keeps the filesystem events already
performed. -/
def update_portfolio (secure : String → String) (ts : String)
    (disk : List String) (item : PortfolioRow) (form : PortfolioForm) :
    HttpResult × PortfolioRow × List String × List FsEvent :=
  match update_portfolio_image secure ts disk item form.image with
  | (item1, disk1, events) =>
    match apply_portfolio_form item1 form with
    | none => (⟨500, "Server error"⟩, item, disk1, events)
    | some item2 => (⟨200, ""⟩, item2, disk1, events)

/-- The image-replacement block of app_sqlite.py `update_content` (lines
563–577) on the row's nullable `image_url`: with a non-empty, allowed file
it first deletes the old file (the url with `/uploads/` stripped, if on
disk), then writes the new file and updates the url. -/
def update_content_image (secure : String → String) (ts : String)
    (disk : List String) (image_url : Option String) (image : Option UploadedFile) :
    Option String × List String × List FsEvent :=
  match image with
  | none => (image_url, disk, [])
  | some file =>
    if file.filename = "" then (image_url, disk, [])
    else if allowed_file file.filename = false then (image_url, disk, [])
    else
      let delEvents :=
        match image_url with
        | none => []
        | some url =>
          if url ≠ "" then
            if disk.contains ⟨stripUploads url.data⟩ then
              [FsEvent.removeFile ⟨stripUploads url.data⟩]
            else []
          else []
      let disk1 := applyEvents disk delEvents
      let stored := ts ++ "_" ++ secure file.filename
      (some ("/uploads/" ++ stored),
       applyEvents disk1 [FsEvent.writeFile stored],
       delEvents ++ [FsEvent.writeFile stored])

lemma update_portfolio_image_invalid (secure : String → String) (ts : String)
    (disk : List String) (item : PortfolioRow) (f : UploadedFile)
    (hne : f.filename ≠ "") (hbad : allowed_file f.filename = false) :
    update_portfolio_image secure ts disk item (some f) = (item, disk, []) := by
  rw [update_portfolio_image]
  dsimp only
  rw [if_neg hne, if_pos hbad]

lemma apply_text_fields_spec (item : PortfolioRow) (form : PortfolioForm) :
    (apply_text_fields item form).title =
      (match form.title with
        | some t => if t = "" then item.title else t
        | none => item.title) ∧
    (apply_text_fields item form).description =
      (match form.description with
        | some d => d
        | none => item.description) ∧
    (apply_text_fields item form).category =
      (match form.category with
        | some c => if c = "" then item.category else c
        | none => item.category) ∧
    (apply_text_fields item form).featured =
      (match form.featured with
        | some f => (decide (f = "true") : Bool)
        | none => item.featured) ∧
    (apply_text_fields item form).image_url = item.image_url ∧
    (apply_text_fields item form).order_val = item.order_val := by
  rcases form with ⟨img, t, d, c, f, o⟩
  rcases t with _ | t <;> rcases d with _ | d <;> rcases c with _ | c <;> rcases f with _ | f <;>
    simp [apply_text_fields, apply_title, apply_description, apply_category, apply_featured] <;>
    split_ifs <;> simp_all

/-- C10: in the field block of `update_portfolio`, an empty `title` or
`category` leaves the stored field unchanged, an empty `description`
overwrites it with the empty string, and every absent field (and always
`image_url`) is left unchanged. -/
theorem C10_update_portfolio_field_emptiness (item : PortfolioRow) (form : PortfolioForm)
    (r : PortfolioRow) (hr : apply_portfolio_form item form = some r) :
    (form.title = some "" → r.title = item.title) ∧
    (form.category = some "" → r.category = item.category) ∧
    (form.description = some "" → r.description = "") ∧
    (form.title = none → r.title = item.title) ∧
    (form.description = none → r.description = item.description) ∧
    (form.category = none → r.category = item.category) ∧
    (form.featured = none → r.featured = item.featured) ∧
    (form.order_field = none → r.order_val = item.order_val) ∧
    r.image_url = item.image_url := by
  obtain ⟨hT, hD, hC, hF, hU, hO⟩ := apply_text_fields_spec item form
  have hfields : r.title = (apply_text_fields item form).title ∧
      r.description = (apply_text_fields item form).description ∧
      r.category = (apply_text_fields item form).category ∧
      r.featured = (apply_text_fields item form).featured ∧
      r.image_url = (apply_text_fields item form).image_url ∧
      (form.order_field = none → r.order_val = (apply_text_fields item form).order_val) := by
    rw [apply_portfolio_form] at hr
    cases ho : form.order_field with
    | none =>
      rw [ho] at hr
      have h1 : apply_text_fields item form = r := by injection hr
      subst h1
      exact ⟨rfl, rfl, rfl, rfl, rfl, fun _ => rfl⟩
    | some o =>
      rw [ho] at hr
      dsimp only at hr
      cases hp : pyInt o with
      | none => rw [hp] at hr; cases hr
      | some n =>
        rw [hp] at hr
        dsimp only at hr
        have h1 : { apply_text_fields item form with order_val := n } = r := by injection hr
        subst h1
        refine ⟨rfl, rfl, rfl, rfl, rfl, fun hc => ?_⟩
        simp [ho] at hc
  obtain ⟨f1, f2, f3, f4, f5, f6⟩ := hfields
  refine ⟨?_, ?_, ?_, ?_, ?_, ?_, ?_, ?_, ?_⟩
  · intro h; rw [f1, hT, h]; simp
  · intro h; rw [f3, hC, h]; simp
  · intro h; rw [f2, hD, h]
  · intro h; rw [f1, hT, h]
  · intro h; rw [f2, hD, h]
  · intro h; rw [f3, hC, h]
  · intro h; rw [f4, hF, h]
  · intro h; rw [f6 h, hO]
  · rw [f5, hU]

/-- Concrete instantiation of C10: empty title and description against a
fully populated row — the title survives, the description is blanked. -/
theorem C10_update_portfolio_field_emptiness_witness :
    apply_portfolio_form ⟨"t0", "d0", "c0", "/uploads/a.jpg", false, 3⟩
        ⟨none, some "", some "", none, none, none⟩ =
      some ⟨"t0", "", "c0", "/uploads/a.jpg", false, 3⟩ ∧
    (⟨"t0", "", "c0", "/uploads/a.jpg", false, 3⟩ : PortfolioRow).title = "t0" ∧
    (⟨"t0", "", "c0", "/uploads/a.jpg", false, 3⟩ : PortfolioRow).description = "" := by
  have hr : apply_portfolio_form ⟨"t0", "d0", "c0", "/uploads/a.jpg", false, 3⟩
      ⟨none, some "", some "", none, none, none⟩ =
      some ⟨"t0", "", "c0", "/uploads/a.jpg", false, 3⟩ := by decide
  exact ⟨hr, (C10_update_portfolio_field_emptiness _ _ _ hr).1 rfl,
    (C10_update_portfolio_field_emptiness _ _ _ hr).2.2.1 rfl⟩

lemma apply_portfolio_form_image_url (item : PortfolioRow) (form : PortfolioForm)
    (r : PortfolioRow) (h : apply_portfolio_form item form = some r) :
    r.image_url = item.image_url := by
  rw [apply_portfolio_form] at h
  cases ho : form.order_field with
  | none =>
    rw [ho] at h
    have h1 : apply_text_fields item form = r := by injection h
    subst h1
    exact (apply_text_fields_spec item form).2.2.2.2.1
  | some o =>
    rw [ho] at h
    dsimp only at h
    cases hp : pyInt o with
    | none => rw [hp] at h; cases h
    | some n =>
      rw [hp] at h
      dsimp only at h
      have h1 : { apply_text_fields item form with order_val := n } = r := by injection h
      subst h1
      exact (apply_text_fields_spec item form).2.2.2.2.1

/-- Counterexample to C3 as stated: a PUT /api/portfolio/:id carrying the
non-empty disallowed file `x.txt` answers 200, applies the title change and
keeps the old image — not a 400. -/
theorem C3_counterexample_update_not_400 :
    update_portfolio (fun s => s) "100" ["old.jpg"]
        ⟨"t", "d", "c", "/uploads/old.jpg", false, 0⟩
        ⟨some ⟨"x.txt"⟩, some "newtitle", none, none, none, none⟩ =
      (⟨200, ""⟩, ⟨"newtitle", "d", "c", "/uploads/old.jpg", false, 0⟩, ["old.jpg"], []) ∧
    allowed_file "x.txt" = false := by
  exact ⟨by decide, by decide⟩

/-- C3 amended: in the update routes a non-empty image file with a
disallowed extension is silently ignored — the request behaves exactly as if
no file had been attached: no filesystem event, the upload directory and the
row's `image_url` unchanged, the remaining form fields processed as usual,
and the response is never the 400 the create route would give. -/
theorem C3_invalid_type_silently_skipped (secure : String → String) (ts : String)
    (disk : List String) (item : PortfolioRow) (form : PortfolioForm) (f : UploadedFile)
    (hf : form.image = some f) (hne : f.filename ≠ "") (hbad : allowed_file f.filename = false) :
    update_portfolio secure ts disk item form =
      update_portfolio secure ts disk item { form with image := none } ∧
    (update_portfolio secure ts disk item form).2.2.2 = [] ∧
    (update_portfolio secure ts disk item form).2.2.1 = disk ∧
    (update_portfolio secure ts disk item form).2.1.image_url = item.image_url ∧
    (update_portfolio secure ts disk item form).1.status ≠ 400 ∧
    (∀ iurl : Option String,
      update_content_image secure ts disk iurl (some f) = (iurl, disk, [])) := by
  have himg : update_portfolio_image secure ts disk item form.image = (item, disk, []) := by
    rw [hf]
    exact update_portfolio_image_invalid secure ts disk item f hne hbad
  have hmain : update_portfolio secure ts disk item form =
      (match apply_portfolio_form item form with
        | none => (⟨500, "Server error"⟩, item, disk, [])
        | some item2 => (⟨200, ""⟩, item2, disk, [])) := by
    rw [update_portfolio, himg]
  refine ⟨?_, ?_, ?_, ?_, ?_, ?_⟩
  · rw [hmain]; rfl
  · rw [hmain]
    cases happ : apply_portfolio_form item form with
    | none => rfl
    | some r => rfl
  · rw [hmain]
    cases happ : apply_portfolio_form item form with
    | none => rfl
    | some r => rfl
  · rw [hmain]
    cases happ : apply_portfolio_form item form with
    | none => rfl
    | some r => exact apply_portfolio_form_image_url item form r happ
  · rw [hmain]
    cases happ : apply_portfolio_form item form with
    | none => simp
    | some r => simp
  · intro iurl
    rw [update_content_image.eq_def]
    dsimp only
    rw [if_neg hne, if_pos hbad]

/-- Concrete instantiation of the amended C3: the `x.txt` update above is
identical to the same update with no file attached. -/
theorem C3_invalid_type_silently_skipped_witness :
    update_portfolio (fun s => s) "100" ["old.jpg"]
        ⟨"t", "d", "c", "/uploads/old.jpg", false, 0⟩
        ⟨some ⟨"x.txt"⟩, some "newtitle", none, none, none, none⟩ =
      update_portfolio (fun s => s) "100" ["old.jpg"]
        ⟨"t", "d", "c", "/uploads/old.jpg", false, 0⟩
        ⟨none, some "newtitle", none, none, none, none⟩ :=
  (C3_invalid_type_silently_skipped (fun s => s) "100" ["old.jpg"]
      ⟨"t", "d", "c", "/uploads/old.jpg", false, 0⟩
      ⟨some ⟨"x.txt"⟩, some "newtitle", none, none, none, none⟩
      ⟨"x.txt"⟩ rfl (by decide) (by decide)).1

/-- C1 evaluated at the failing input: replacing `old.jpg` (referenced by
the row and present on disk) with the valid upload `new.jpg` first removes
the old file and only then writes the new one — after the first event the
upload directory holds neither file — and the content route's image block
emits the same delete-then-write trace. -/
theorem C1_old_file_removed_before_new_written :
    (update_portfolio_image (fun s => s) "100" ["old.jpg"]
        ⟨"t", "d", "c", "/uploads/old.jpg", false, 0⟩ (some ⟨"new.jpg"⟩)).2.2 =
      [FsEvent.removeFile "old.jpg", FsEvent.writeFile "100_new.jpg"] ∧
    applyEvents ["old.jpg"] [FsEvent.removeFile "old.jpg"] = [] ∧
    (update_content_image (fun s => s) "100" ["old.jpg"] (some "/uploads/old.jpg")
        (some ⟨"new.jpg"⟩)).2.2 =
      [FsEvent.removeFile "old.jpg", FsEvent.writeFile "100_new.jpg"] := by
  refine ⟨by decide, by decide, by decide⟩

/-- C7 amended: `POST /api/portfolio` answers 400 `Image is required` with no
file field, 400 `No file selected` on an empty filename, 400
`Invalid file type` on a disallowed extension; with an allowed filename it
creates the row with `image_url` `/uploads/<timestamp>_<sanitized name>` —
provided the `order` field, when present, parses as a Python integer and the
non-nullable `title` and `category` fields are present.  An ASCII order
field `int()` rejects makes the constructor raise, and a missing title or
category makes the commit raise IntegrityError: both answer 500 with the
file already written.  (The ASCII hypothesis of the ValueError clause marks
the inputs on which the modelled `int()` coincides with Python's, which also
accepts non-ASCII digit forms.) -/
theorem C7_create_portfolio_responses (secure : String → String) (ts : String)
    (form : PortfolioForm) :
    (form.image = none →
      create_portfolio secure ts form = (.err 400 "Image is required", [])) ∧
    (∀ f, form.image = some f → f.filename = "" →
      create_portfolio secure ts form = (.err 400 "No file selected", [])) ∧
    (∀ f, form.image = some f → f.filename ≠ "" → allowed_file f.filename = false →
      create_portfolio secure ts form = (.err 400 "Invalid file type", [])) ∧
    (∀ f ord t c, form.image = some f → f.filename ≠ "" → allowed_file f.filename = true →
      parseOrderField form.order_field = some ord →
      form.title = some t → form.category = some c →
      create_portfolio secure ts form =
        (.created (some t) (form.description.getD "") (some c)
          ("/uploads/" ++ (ts ++ "_" ++ secure f.filename))
          (form.featured.getD "" = "true") ord,
         [FsEvent.writeFile (ts ++ "_" ++ secure f.filename)])) ∧
    (∀ f o, form.image = some f → f.filename ≠ "" → allowed_file f.filename = true →
      form.order_field = some o → (∀ ch ∈ o.data, ch.toNat ≤ 127) → pyInt o = none →
      create_portfolio secure ts form =
        (.err 500 "Server error", [FsEvent.writeFile (ts ++ "_" ++ secure f.filename)])) ∧
    (∀ f ord, form.image = some f → f.filename ≠ "" → allowed_file f.filename = true →
      parseOrderField form.order_field = some ord →
      form.title = none ∨ form.category = none →
      create_portfolio secure ts form =
        (.err 500 "Server error", [FsEvent.writeFile (ts ++ "_" ++ secure f.filename)])) := by
  refine ⟨?_, ?_, ?_, ?_, ?_, ?_⟩
  · intro h
    rw [create_portfolio, h]
  · intro f hf he
    rw [create_portfolio, hf]
    dsimp only
    rw [if_pos he]
  · intro f hf hne hbad
    rw [create_portfolio, hf]
    dsimp only
    rw [if_neg hne, if_pos hbad]
  · intro f ord t c hf hne hgood hord ht hc
    rw [create_portfolio, hf]
    dsimp only
    rw [if_neg hne, if_neg (by simp [hgood]), hord]
    dsimp only
    rw [if_neg (by simp [ht, hc]), ht, hc]
  · intro f o hf hne hgood ho hascii hpy
    have hord : parseOrderField form.order_field = none := by
      rw [ho]
      exact hpy
    rw [create_portfolio, hf]
    dsimp only
    rw [if_neg hne, if_neg (by simp [hgood]), hord]
  · intro f ord hf hne hgood hord hnull
    rw [create_portfolio, hf]
    dsimp only
    rw [if_neg hne, if_neg (by simp [hgood]), hord]
    dsimp only
    rw [if_pos hnull]

/-- Counterexample to C7 as stated: the allowed file `photo.jpg` answers
500, not 201 — with the file already written — when the order field is the
unparsable `abc`, and likewise when the non-nullable title is absent. -/
theorem C7_counterexample_order_field :
    create_portfolio (fun s => s) "123"
        ⟨some ⟨"photo.jpg"⟩, some "t", some "d", some "c", none, some "abc"⟩ =
      (.err 500 "Server error", [FsEvent.writeFile "123_photo.jpg"]) ∧
    create_portfolio (fun s => s) "123"
        ⟨some ⟨"photo.jpg"⟩, none, some "d", some "c", none, none⟩ =
      (.err 500 "Server error", [FsEvent.writeFile "123_photo.jpg"]) ∧
    allowed_file "photo.jpg" = true := by
  exact ⟨by decide, by decide, by decide⟩

/-- Concrete instantiation of the amended C7: `photo.txt` is refused as an
invalid type; `photo.jpg` with title, category and the PEP 515 order `1_0`
creates the row under `/uploads/123_photo.jpg` with order 10; the ASCII
order `x` and a missing title each answer 500 with the file written. -/
theorem C7_create_portfolio_responses_witness :
    create_portfolio (fun s => s) "123"
        ⟨some ⟨"photo.txt"⟩, some "t", none, some "c", none, none⟩ =
      (.err 400 "Invalid file type", []) ∧
    create_portfolio (fun s => s) "123"
        ⟨some ⟨"photo.jpg"⟩, some "t", none, some "c", none, some "1_0"⟩ =
      (.created (some "t") "" (some "c") "/uploads/123_photo.jpg" false 10,
       [FsEvent.writeFile "123_photo.jpg"]) ∧
    create_portfolio (fun s => s) "123"
        ⟨some ⟨"photo.jpg"⟩, some "t", none, some "c", none, some "x"⟩ =
      (.err 500 "Server error", [FsEvent.writeFile "123_photo.jpg"]) ∧
    create_portfolio (fun s => s) "123"
        ⟨some ⟨"photo.jpg"⟩, none, none, some "c", none, none⟩ =
      (.err 500 "Server error", [FsEvent.writeFile "123_photo.jpg"]) :=
  ⟨(C7_create_portfolio_responses (fun s => s) "123"
      ⟨some ⟨"photo.txt"⟩, some "t", none, some "c", none, none⟩).2.2.1
      ⟨"photo.txt"⟩ rfl (by decide) (by decide),
   (C7_create_portfolio_responses (fun s => s) "123"
      ⟨some ⟨"photo.jpg"⟩, some "t", none, some "c", none, some "1_0"⟩).2.2.2.1
      ⟨"photo.jpg"⟩ 10 "t" "c" rfl (by decide) (by decide) (by decide) rfl rfl,
   (C7_create_portfolio_responses (fun s => s) "123"
      ⟨some ⟨"photo.jpg"⟩, some "t", none, some "c", none, some "x"⟩).2.2.2.2.1
      ⟨"photo.jpg"⟩ "x" rfl (by decide) (by decide) rfl (by decide) (by decide),
   (C7_create_portfolio_responses (fun s => s) "123"
      ⟨some ⟨"photo.jpg"⟩, none, none, some "c", none, none⟩).2.2.2.2.2
      ⟨"photo.jpg"⟩ 0 rfl (by decide) (by decide) rfl (Or.inl rfl)⟩

end PhotoWeb
